import Mathlib

/-!
Verification of the NL2SQL pipeline of the `hackprix` repository.

The repository contains four Python source files:
  `model/run.py`        — plain CLI pipeline (`NL2SQLConverter`),
  `model/nl2sql_rag.py` — retrieval-augmented pipeline (`NL2SQLRAGConverter`
                          plus `RAGManager`),
  `app.py`              — Streamlit UI entry point,
  `model/app.py`        — Gradio UI entry point.

We shallowly embed the pure text-processing code (the `SQLQueryParser.parse`
methods) and the pipeline stage functions over an explicit state record.
Python strings are modelled as `List Char` (a sequence of code points);
`str.lower`/`str.upper` are modelled character-wise over the ASCII range,
which is exact on the ASCII fences, keywords and messages the code works
with.  External effects — the Ollama model calls, the psycopg2 connection
and cursor operations and the Chroma similarity search — are modelled as
oracle records whose fields record the outcome of each call within one
invocation (`Except msg result`, the `msg` being Python's `str(e)` of the
raised exception).  Connection acquisition/release is tracked by a ghost
`ConnTrace` value alongside the embedded return value, and the LangGraph
workflow wiring of `create_graph` is embedded as a function that also
returns the ghost list of stage nodes that were executed.
-/

/-- Code points of a Lean string literal; used to transcribe the Python
string literals of the source. -/
def lchars (s : String) : List Char := s.toList

/-- The characters stripped by Python's `str.strip()` (its ASCII whitespace;
the source only ever strips ASCII text). -/
def isPySpace (c : Char) : Bool :=
  c = ' ' || c = '\t' || c = '\n' || c = '\r' || c = '\x0b' || c = '\x0c'

/-- Python `s.strip()`: drop whitespace from both ends. -/
def pstrip (s : List Char) : List Char :=
  ((s.dropWhile isPySpace).reverse.dropWhile isPySpace).reverse

/-- Python `s.lower()`, character-wise (exact on ASCII). -/
def lowerStr (s : List Char) : List Char := s.map Char.toLower

/-- Python `s.upper()`, character-wise (exact on ASCII). -/
def upperStr (s : List Char) : List Char := s.map Char.toUpper

/-- Scan of `s.find(pat, start)`: try each successive suffix, returning the
index of the first position whose suffix starts with `pat`. -/
def findAux (pat : List Char) : List Char → Nat → Option Nat
  | [], i => if pat.isPrefixOf ([] : List Char) then some i else none
  | c :: rest, i =>
      if pat.isPrefixOf (c :: rest) then some i else findAux pat rest (i + 1)

/-- Python `s.find(pat, start)` (for the non-empty `pat`s the source uses):
lowest index `≥ start` at which `pat` occurs, `none` for Python's `-1`. -/
def findFrom (s pat : List Char) (start : Nat) : Option Nat :=
  findAux pat (s.drop start) start

/-- Python `pat in s` (substring containment). -/
def containsSub (s pat : List Char) : Bool := (findFrom s pat 0).isSome

/-- Python `s[a:b]` for `0 ≤ a, b`. -/
def pySlice (s : List Char) (a b : Nat) : List Char := (s.take b).drop a

/-- Python `s.split('\n')`: split at every newline, keeping empty pieces. -/
def splitNL : List Char → List (List Char)
  | [] => [[]]
  | c :: rest =>
      if c = '\n' then [] :: splitNL rest
      else
        match splitNL rest with
        | [] => [[c]]
        | l :: ls => (c :: l) :: ls

/-- Python `'\n'.join(lines)`. -/
def joinNL (ls : List (List Char)) : List Char := List.intercalate ['\n'] ls

/-- Python `'\n\n'.join(chunks)` (used by the RAG context retriever). -/
def joinBlank (ls : List (List Char)) : List Char :=
  List.intercalate (lchars "\n\n") ls

/-- Python `line.strip().endswith(';')`. -/
def stripEndsSemi (l : List Char) : Bool :=
  match (pstrip l).getLast? with
  | some c => c = ';'
  | none => false

/-- The literal `sql_keywords = ['SELECT', 'INSERT', 'UPDATE', 'DELETE']`
appearing identically in all four source files. -/
def sqlKeywords : List (List Char) :=
  [lchars "SELECT", lchars "INSERT", lchars "UPDATE", lchars "DELETE"]

/-- The literal `"```sql"` searched for in the lowered text. -/
def bq3sql : List Char := lchars "```sql"

/-- The literal `"```"` fence marker. -/
def bq3 : List Char := lchars "```"

/-- `any(kw in line.upper() for kw in sql_keywords)` — the per-line capture
trigger of the keyword scan. -/
def lineKw (l : List Char) : Bool :=
  sqlKeywords.any (fun kw => containsSub (upperStr l) kw)

namespace Run

/-- The capture loop of `SQLQueryParser.parse` in `model/run.py`
(lines 47–56): once a line contains a DML keyword start capturing; append
every line while capturing and stop right after a line whose stripped form
ends with `;`. -/
def captureLoop : List (List Char) → Bool → List (List Char)
  | [], _ => []
  | line :: rest, capturing =>
      let c := capturing || lineKw line
      if c then
        if stripEndsSemi line then [line]
        else line :: captureLoop rest true
      else
        captureLoop rest c

/-- The keyword-scan tail of `SQLQueryParser.parse` in `model/run.py`
(lines 42–59): the `for keyword in sql_keywords` loop returns the joined
captured lines (independently of which keyword matched first), and if no
keyword occurs in the uppercased text the trimmed text itself is returned. -/
def keywordScan (text : List Char) : List Char :=
  if sqlKeywords.any (fun kw => containsSub (upperStr text) kw) then
    pstrip (joinNL (captureLoop (splitNL text) false))
  else
    pstrip text

/-- `SQLQueryParser.parse` of `model/run.py` (lines 26–59).  Python's
paired `"```sql" in text.lower()` test and `text.lower().find("```sql")`
call are modelled by a single `findFrom` match (`pat in s` iff
`s.find(pat) != -1`), and likewise for the untagged-fence branch. -/
def parse (text0 : List Char) : List Char :=
  let text := pstrip text0
  match findFrom (lowerStr text) bq3sql 0 with
  | some i =>
      let start := i + 6
      (match findFrom text bq3 start with
       | some e => pstrip (pySlice text start e)
       | none => keywordScan text)
  | none =>
      match findFrom text bq3 0 with
      | some i =>
          let start := i + 3
          (match findFrom text bq3 start with
           | some e => pstrip (pySlice text start e)
           | none => keywordScan text)
      | none => keywordScan text

end Run

namespace Rag

/-- The capture loop of `SQLQueryParser.parse` in `model/nl2sql_rag.py`
(lines 55–64); the source text is identical to the `model/run.py` copy. -/
def captureLoop : List (List Char) → Bool → List (List Char)
  | [], _ => []
  | line :: rest, capturing =>
      let c := capturing || lineKw line
      if c then
        if stripEndsSemi line then [line]
        else line :: captureLoop rest true
      else
        captureLoop rest c

/-- The keyword-scan tail of `SQLQueryParser.parse` in `model/nl2sql_rag.py`
(lines 50–67). -/
def keywordScan (text : List Char) : List Char :=
  if sqlKeywords.any (fun kw => containsSub (upperStr text) kw) then
    pstrip (joinNL (captureLoop (splitNL text) false))
  else
    pstrip text

/-- `SQLQueryParser.parse` of `model/nl2sql_rag.py` (lines 34–67). -/
def parse (text0 : List Char) : List Char :=
  let text := pstrip text0
  match findFrom (lowerStr text) bq3sql 0 with
  | some i =>
      let start := i + 6
      (match findFrom text bq3 start with
       | some e => pstrip (pySlice text start e)
       | none => keywordScan text)
  | none =>
      match findFrom text bq3 0 with
      | some i =>
          let start := i + 3
          (match findFrom text bq3 start with
           | some e => pstrip (pySlice text start e)
           | none => keywordScan text)
      | none => keywordScan text

end Rag

namespace App

/-- The capture loop of `SQLQueryParser.parse` in `app.py` (lines 89–97). -/
def captureLoop : List (List Char) → Bool → List (List Char)
  | [], _ => []
  | line :: rest, capturing =>
      let c := capturing || lineKw line
      if c then
        if stripEndsSemi line then [line]
        else line :: captureLoop rest true
      else
        captureLoop rest c

/-- The keyword-scan tail of `SQLQueryParser.parse` in `app.py`
(lines 85–99). -/
def keywordScan (text : List Char) : List Char :=
  if sqlKeywords.any (fun kw => containsSub (upperStr text) kw) then
    pstrip (joinNL (captureLoop (splitNL text) false))
  else
    pstrip text

/-- `SQLQueryParser.parse` of `app.py` (lines 71–101); identical code to the
`model/run.py` copy except for dropped comments. -/
def parse (text0 : List Char) : List Char :=
  let text := pstrip text0
  match findFrom (lowerStr text) bq3sql 0 with
  | some i =>
      let start := i + 6
      (match findFrom text bq3 start with
       | some e => pstrip (pySlice text start e)
       | none => keywordScan text)
  | none =>
      match findFrom text bq3 0 with
      | some i =>
          let start := i + 3
          (match findFrom text bq3 start with
           | some e => pstrip (pySlice text start e)
           | none => keywordScan text)
      | none => keywordScan text

end App

namespace ModelApp

/-- The capture loop of `SQLQueryParser.parse` in `model/app.py`
(lines 48–57). -/
def captureLoop : List (List Char) → Bool → List (List Char)
  | [], _ => []
  | line :: rest, capturing =>
      let c := capturing || lineKw line
      if c then
        if stripEndsSemi line then [line]
        else line :: captureLoop rest true
      else
        captureLoop rest c

/-- The keyword-scan tail of `SQLQueryParser.parse` in `model/app.py`
(lines 43–60). -/
def keywordScan (text : List Char) : List Char :=
  if sqlKeywords.any (fun kw => containsSub (upperStr text) kw) then
    pstrip (joinNL (captureLoop (splitNL text) false))
  else
    pstrip text

/-- `SQLQueryParser.parse` of `model/app.py` (lines 27–60). -/
def parse (text0 : List Char) : List Char :=
  let text := pstrip text0
  match findFrom (lowerStr text) bq3sql 0 with
  | some i =>
      let start := i + 6
      (match findFrom text bq3 start with
       | some e => pstrip (pySlice text start e)
       | none => keywordScan text)
  | none =>
      match findFrom text bq3 0 with
      | some i =>
          let start := i + 3
          (match findFrom text bq3 start with
           | some e => pstrip (pySlice text start e)
           | none => keywordScan text)
      | none => keywordScan text

end ModelApp

/-- A scalar value observed in a result row (text or count); rows reach the
pipeline only as opaque payload, so two constructors suffice. -/
inductive PyVal where
  | s (v : List Char)
  | i (v : Int)
deriving DecidableEq

/-- One result row: the `RealDictCursor` column-name-keyed mapping
(`dict(row)` in the source). -/
abbrev Row := List (List Char × PyVal)

/-- Ghost record tracking the psycopg2 connection of one
`execute_sql_query` invocation: whether `psycopg2.connect` returned a live
connection, and whether `conn.close()` was reached. -/
structure ConnTrace where
  opened : Bool
  closed : Bool
deriving DecidableEq

/-- The LangGraph node names of `create_graph` (both variants). -/
inductive Stage where
  | retrieveContext
  | generateSql
  | executeQuery
  | generateAnswer
  | handleError
deriving DecidableEq

/-- `NL2SQLState` of `model/run.py` (lines 16–21), the TypedDict flowing
through the plain pipeline (`app.py` and `model/app.py` declare the same
TypedDict). -/
structure NL2SQLState where
  question : List Char
  sql_query : List Char
  query_result : List Row
  final_answer : List Char
  error : Option (List Char)
deriving DecidableEq

/-- `NL2SQLRAGState` of `model/nl2sql_rag.py` (lines 22–29). -/
structure NL2SQLRAGState where
  question : List Char
  sql_query : List Char
  query_result : List Row
  final_answer : List Char
  error : Option (List Char)
  context_docs : List (List Char)
  rag_context : List Char
deriving DecidableEq

/-- Outcomes of the external calls made during one plain-pipeline
invocation.  `Except m r` records either the value the call returned or
Python's `str(e)` of the exception it raised: `genResp` is
`self.llm.invoke` inside `generate_sql_query`, `ansResp` is
`self.llm.invoke` inside `generate_natural_answer`, `connect` covers
`psycopg2.connect` plus `conn.cursor`, `execResp` is `cursor.execute`,
`fetchResp` is `cursor.fetchall` (already converted row dicts),
`rowcount`/`commitResp` are `cursor.rowcount` and `conn.commit`. -/
structure Oracle where
  genResp : Except (List Char) (List Char)
  ansResp : Except (List Char) (List Char)
  connect : Except (List Char) Unit
  execResp : Except (List Char) Unit
  fetchResp : Except (List Char) (List Row)
  rowcount : Int
  commitResp : Except (List Char) Unit

/-- Outcomes of the external calls of one RAG-pipeline invocation; as
`Oracle`, plus `searchResp` for `self.vector_store.similarity_search`
(the returned documents' `page_content` strings). -/
structure RAGOracle where
  searchResp : Except (List Char) (List (List Char))
  genResp : Except (List Char) (List Char)
  ansResp : Except (List Char) (List Char)
  connect : Except (List Char) Unit
  execResp : Except (List Char) Unit
  fetchResp : Except (List Char) (List Row)
  rowcount : Int
  commitResp : Except (List Char) Unit

/-- Python truthiness of the `error` field as used by
`state.get("error")` in `should_handle_error`: `None` and the empty string
are falsy. -/
def errTruthy : Option (List Char) → Bool
  | none => false
  | some m => !m.isEmpty

/-- `state["sql_query"].strip().upper().startswith("SELECT")`. -/
def startsWithSelect (q : List Char) : Bool :=
  (lchars "SELECT").isPrefixOf (upperStr (pstrip q))

/-- `f"Failed to generate SQL query: {str(e)}"`. -/
def genFailMsg (e : List Char) : List Char :=
  lchars "Failed to generate SQL query: " ++ e

/-- `f"SQL execution error: {str(e)}"`. -/
def execErrMsg (e : List Char) : List Char :=
  lchars "SQL execution error: " ++ e

/-- `f"Generated results but failed to create natural language response: {str(e)}"`. -/
def synthFailMsg (e : List Char) : List Char :=
  lchars "Generated results but failed to create natural language response: " ++ e

/-- The text of the `handle_error` f-string template before the spliced
`{error_msg}` (`model/run.py` lines 199–212). -/
def errorAnswerHead : List Char :=
  lchars "\n        I encountered an error while processing your question: "

/-- The text of the `handle_error` f-string template after the spliced
`{error_msg}` in `model/run.py`. -/
def errorAnswerTail : List Char :=
  lchars "\n        \n        Please try rephrasing your question or check if:\n        1. The question refers to valid table columns\n        2. The question is clear and specific\n        3. Any date formats are reasonable\n        \n        Example questions you can ask:\n        - \"Show me all students from CSE department\"\n        - \"What is the average LeetCode rating?\"\n        - \"Who has the highest Codeforces rating?\"\n        - \"List students who participated in contests on LEETCODE platform\"\n        "

/-- The formatted user-facing error explanation produced by
`handle_error` in `model/run.py`. -/
def errorAnswer (msg : List Char) : List Char :=
  errorAnswerHead ++ msg ++ errorAnswerTail

/-- The `handle_error` f-string of `model/nl2sql_rag.py` (lines 438–452):
same template with `{context_hint}` spliced on its own indented line after
the error message. -/
def ragErrorAnswer (msg hint : List Char) : List Char :=
  errorAnswerHead ++ msg ++ lchars "\n        " ++ hint ++ errorAnswerTail

/-- `error_msg` as it appears inside the f-string templates:
`state.get("error", "Unknown error occurred")` returns the stored value
because the TypedDict always carries the `error` key, so the default never
fires; a stored `None` renders as the text `None`. -/
def errMsgOf : Option (List Char) → List Char
  | some m => m
  | none => lchars "None"

/-- The `context_hint` computation of `handle_error` in
`model/nl2sql_rag.py` (lines 428–436). -/
def ragContextHint (ragCtx msg : List Char) : List Char :=
  if ragCtx.isEmpty then []
  else
    let h0 := lchars "\n\nBased on the documentation, here are some suggestions:\n"
    let h1 := if containsSub (lowerStr msg) (lchars "column") then
        h0 ++ lchars "- Check column names and use double quotes\n"
      else h0
    let h2 := if containsSub (lowerStr msg) (lchars "enum")
        || containsSub (lowerStr msg) (lchars "platform") then
        h1 ++ lchars "- For platform, use: \x27LEETCODE\x27, \x27CODEFORCES\x27, \x27CODECHEF\x27\n"
      else h1
    if containsSub (lowerStr msg) (lchars "null") then
      h2 ++ lchars "- Consider handling NULL values in your query\n"
    else h2

/-- The `query` return dictionary of `NL2SQLConverter.query`
(`model/run.py` lines 268–274). -/
structure PipelineResult where
  question : List Char
  sql_query : List Char
  results : List Row
  answer : List Char
  error : Option (List Char)
deriving DecidableEq

namespace Run

/-- `NL2SQLConverter.generate_sql_query` (`model/run.py` lines 127–161):
the prompt is a fixed template of the question/schema, so the oracle field
records the model response to it; on success the parsed query is stored,
on an exception the state gets the generation error message. -/
def generate_sql_query (o : Oracle) (st : NL2SQLState) : NL2SQLState :=
  match o.genResp with
  | .ok resp => { st with sql_query := parse resp }
  | .error e => { st with error := some (genFailMsg e) }

/-- `NL2SQLConverter.execute_sql_query` (`model/run.py` lines 163–189),
with a ghost `ConnTrace`.  The `except` clause returns the error state
without any cleanup, so every exceptional exit after a successful
`connect` leaves `closed := false`; `cursor.close(); conn.close()` run
only on the straight-line success path. -/
def execute_sql_query (o : Oracle) (st : NL2SQLState) : NL2SQLState × ConnTrace :=
  match o.connect with
  | .error e => ({ st with error := some (execErrMsg e) }, ⟨false, false⟩)
  | .ok _ =>
    match o.execResp with
    | .error e => ({ st with error := some (execErrMsg e) }, ⟨true, false⟩)
    | .ok _ =>
      if startsWithSelect st.sql_query then
        match o.fetchResp with
        | .error e => ({ st with error := some (execErrMsg e) }, ⟨true, false⟩)
        | .ok rows => ({ st with query_result := rows }, ⟨true, true⟩)
      else
        match o.commitResp with
        | .error e => ({ st with error := some (execErrMsg e) }, ⟨true, false⟩)
        | .ok _ =>
          ({ st with query_result := [[(lchars "affected_rows", PyVal.i o.rowcount)]] },
           ⟨true, true⟩)

/-- `NL2SQLConverter.should_handle_error` (`model/run.py` lines 191–193):
`"error" if state.get("error") else "success"`. -/
def should_handle_error (st : NL2SQLState) : List Char :=
  if errTruthy st.error then lchars "error" else lchars "success"

/-- `NL2SQLConverter.handle_error` (`model/run.py` lines 195–214). -/
def handle_error (st : NL2SQLState) : NL2SQLState :=
  { st with final_answer := errorAnswer (errMsgOf st.error) }

/-- `NL2SQLConverter.generate_natural_answer` (`model/run.py`
lines 216–253): the prompt serializes question, query and rows, and the
oracle field records the model response; on success the stripped response
becomes the final answer, on an exception the degraded message does. -/
def generate_natural_answer (o : Oracle) (st : NL2SQLState) : NL2SQLState :=
  match o.ansResp with
  | .ok resp => { st with final_answer := pstrip resp }
  | .error e => { st with final_answer := synthFailMsg e }

/-- The `initial_state` dictionary of `NL2SQLConverter.query`
(`model/run.py` lines 257–263). -/
def initialState (q : List Char) : NL2SQLState :=
  { question := q, sql_query := [], query_result := [], final_answer := [],
    error := none }

/-- `self.graph.invoke` for the workflow wired in
`NL2SQLConverter.create_graph` (`model/run.py` lines 101–125):
entry `generate_sql`, unconditional edge to `execute_query`, conditional
edge on `should_handle_error` to `handle_error` or `generate_answer`,
both of which end the graph.  The second component is the ghost list of
executed nodes. -/
def runGraph (o : Oracle) (st0 : NL2SQLState) : NL2SQLState × List Stage :=
  let s1 := generate_sql_query o st0
  let s2 := (execute_sql_query o s1).1
  if should_handle_error s2 = lchars "error" then
    (handle_error s2, [Stage.generateSql, Stage.executeQuery, Stage.handleError])
  else
    (generate_natural_answer o s2,
     [Stage.generateSql, Stage.executeQuery, Stage.generateAnswer])

/-- `NL2SQLConverter.query` (`model/run.py` lines 255–274). -/
def query (o : Oracle) (q : List Char) : PipelineResult :=
  let r := (runGraph o (initialState q)).1
  { question := r.question, sql_query := r.sql_query, results := r.query_result,
    answer := r.final_answer, error := r.error }

end Run

namespace Rag

/-- `RAGManager.get_relevant_context` (`model/nl2sql_rag.py`
lines 236–250): on success the documents' contents and their
`"\n\n"`-joined concatenation; any exception from the similarity search is
caught and `([], "")` returned. -/
def get_relevant_context (o : RAGOracle) : List (List Char) × List Char :=
  match o.searchResp with
  | .ok docs => (docs, joinBlank docs)
  | .error _ => ([], [])

/-- `NL2SQLRAGConverter.retrieve_context` (`model/nl2sql_rag.py`
lines 327–345).  The guarded call `get_relevant_context` is total in the
model (it swallows its own failure), so the `except` branch that would set
`error` is unreachable. -/
def retrieve_context (o : RAGOracle) (st : NL2SQLRAGState) : NL2SQLRAGState :=
  let cd := get_relevant_context o
  { st with context_docs := cd.1, rag_context := cd.2 }

/-- `NL2SQLRAGConverter.generate_sql_query` (`model/nl2sql_rag.py`
lines 347–389). -/
def generate_sql_query (o : RAGOracle) (st : NL2SQLRAGState) : NL2SQLRAGState :=
  match o.genResp with
  | .ok resp => { st with sql_query := parse resp }
  | .error e => { st with error := some (genFailMsg e) }

/-- `NL2SQLRAGConverter.execute_sql_query` (`model/nl2sql_rag.py`
lines 391–417); textually the same code as the `model/run.py` executor,
including the missing cleanup on the exceptional exits. -/
def execute_sql_query (o : RAGOracle) (st : NL2SQLRAGState) :
    NL2SQLRAGState × ConnTrace :=
  match o.connect with
  | .error e => ({ st with error := some (execErrMsg e) }, ⟨false, false⟩)
  | .ok _ =>
    match o.execResp with
    | .error e => ({ st with error := some (execErrMsg e) }, ⟨true, false⟩)
    | .ok _ =>
      if startsWithSelect st.sql_query then
        match o.fetchResp with
        | .error e => ({ st with error := some (execErrMsg e) }, ⟨true, false⟩)
        | .ok rows => ({ st with query_result := rows }, ⟨true, true⟩)
      else
        match o.commitResp with
        | .error e => ({ st with error := some (execErrMsg e) }, ⟨true, false⟩)
        | .ok _ =>
          ({ st with query_result := [[(lchars "affected_rows", PyVal.i o.rowcount)]] },
           ⟨true, true⟩)

/-- `NL2SQLRAGConverter.should_handle_error` (`model/nl2sql_rag.py`
lines 419–421). -/
def should_handle_error (st : NL2SQLRAGState) : List Char :=
  if errTruthy st.error then lchars "error" else lchars "success"

/-- `NL2SQLRAGConverter.handle_error` (`model/nl2sql_rag.py`
lines 423–454). -/
def handle_error (st : NL2SQLRAGState) : NL2SQLRAGState :=
  let msg := errMsgOf st.error
  { st with final_answer := ragErrorAnswer msg (ragContextHint st.rag_context msg) }

/-- `NL2SQLRAGConverter.generate_natural_answer` (`model/nl2sql_rag.py`
lines 456–500); the prompt construction (including the `[:1000]`
truncation of the context) is abstracted into the oracle response. -/
def generate_natural_answer (o : RAGOracle) (st : NL2SQLRAGState) : NL2SQLRAGState :=
  match o.ansResp with
  | .ok resp => { st with final_answer := pstrip resp }
  | .error e => { st with final_answer := synthFailMsg e }

/-- The `initial_state` dictionary of `NL2SQLRAGConverter.query`
(`model/nl2sql_rag.py` lines 504–512). -/
def initialState (q : List Char) : NL2SQLRAGState :=
  { question := q, sql_query := [], query_result := [], final_answer := [],
    error := none, context_docs := [], rag_context := [] }

/-- `self.graph.invoke` for the workflow wired in
`NL2SQLRAGConverter.create_graph` (`model/nl2sql_rag.py` lines 299–325):
entry `retrieve_context`, then `generate_sql`, then `execute_query`, then
the conditional edge; ghost node list alongside. -/
def runGraph (o : RAGOracle) (st0 : NL2SQLRAGState) : NL2SQLRAGState × List Stage :=
  let s1 := retrieve_context o st0
  let s2 := generate_sql_query o s1
  let s3 := (execute_sql_query o s2).1
  if should_handle_error s3 = lchars "error" then
    (handle_error s3,
     [Stage.retrieveContext, Stage.generateSql, Stage.executeQuery, Stage.handleError])
  else
    (generate_natural_answer o s3,
     [Stage.retrieveContext, Stage.generateSql, Stage.executeQuery, Stage.generateAnswer])

end Rag

/-- An invocation in which every external call succeeds: the generation
model emits a bare SQL statement, the SELECT returns no rows, and the
answer model produces a sentence. -/
def oHappy : Oracle :=
  { genResp := .ok (lchars "SELECT 1;"),
    ansResp := .ok (lchars "There are no matching rows."),
    connect := .ok (),
    execResp := .ok (),
    fetchResp := .ok [],
    rowcount := 0,
    commitResp := .ok () }

/-- A successful invocation whose answer-model response is whitespace
only. -/
def oBlankAnswer : Oracle := { oHappy with ansResp := .ok (lchars "   ") }

/-- An invocation in which `cursor.execute` raises a syntax error. -/
def oExecFail : Oracle :=
  { oHappy with execResp := .error (lchars "syntax error at end of input") }

/-- An invocation in which the generation-model call raises, and the
subsequent `cursor.execute` of the still-empty query raises as psycopg2
does on an empty statement. -/
def oGenFail : Oracle :=
  { oHappy with
    genResp := .error (lchars "model unavailable"),
    execResp := .error (lchars "cannot execute an empty query") }

/-- An invocation in which `cursor.fetchall` raises after a successful
connect and execute. -/
def oFetchFail : Oracle :=
  { oHappy with
    fetchResp := .error (lchars "SSL connection has been closed unexpectedly") }

/-- An invocation in which the answer-model call raises. -/
def oAnsFail : Oracle :=
  { oHappy with ansResp := .error (lchars "Ollama timeout") }

/-- A pipeline state about to execute a SELECT statement. -/
def stSelect : NL2SQLState :=
  { question := lchars "show students",
    sql_query := lchars "SELECT * FROM \"StudentRecord\"",
    query_result := [], final_answer := [], error := none }

/-- A state holding already-computed rows, entering answer synthesis. -/
def stC9 : NL2SQLState :=
  { question := lchars "average rating?",
    sql_query := lchars "SELECT AVG(\"leetcoderating\") FROM \"StudentRecord\";",
    query_result := [[(lchars "avg", PyVal.i 1500)]],
    final_answer := [], error := none }

/-- A RAG state holding already-computed rows and retrieved context,
entering answer synthesis. -/
def rstC9 : NL2SQLRAGState :=
  { question := lchars "average rating?",
    sql_query := lchars "SELECT AVG(\"leetcoderating\") FROM \"StudentRecord\";",
    query_result := [[(lchars "avg", PyVal.i 1500)]],
    final_answer := [], error := none,
    context_docs := [lchars "Rating fields are INTEGER"],
    rag_context := lchars "Rating fields are INTEGER" }

/-- A RAG invocation whose similarity search raises. -/
def roSearchFail : RAGOracle :=
  { searchResp := .error (lchars "Chroma collection not found"),
    genResp := .ok (lchars "SELECT 1;"),
    ansResp := .ok (lchars "There are no matching rows."),
    connect := .ok (),
    execResp := .ok (),
    fetchResp := .ok [],
    rowcount := 0,
    commitResp := .ok () }

/-- A RAG invocation whose answer-model call raises. -/
def roAnsFail : RAGOracle :=
  { roSearchFail with
    searchResp := .ok [lchars "Common SQL Query Patterns"],
    ansResp := .error (lchars "connection refused") }

/-- A RAG invocation in which `cursor.fetchall` raises after a successful
connect and execute. -/
def roFetchFail : RAGOracle :=
  { roSearchFail with
    searchResp := .ok [lchars "Common SQL Query Patterns"],
    fetchResp := .error (lchars "SSL connection has been closed unexpectedly") }

/-- A RAG pipeline state about to execute a SELECT statement. -/
def rstSelect : NL2SQLRAGState :=
  { question := lchars "show students",
    sql_query := lchars "SELECT * FROM \"StudentRecord\"",
    query_result := [], final_answer := [], error := none,
    context_docs := [], rag_context := [] }

/-- Predicate on an answer-model outcome: if the call succeeded, its
response has non-whitespace content. -/
def okNonBlank : Except (List Char) (List Char) → Bool
  | .ok r => !(pstrip r).isEmpty
  | .error _ => true

theorem findAux_ge (pat : List Char) :
    ∀ (l : List Char) (i j : Nat), findAux pat l i = some j → i ≤ j := by
  intro l
  induction l with
  | nil =>
    intro i j h
    simp only [findAux] at h
    split at h
    · rw [Option.some.injEq] at h
      omega
    · cases h
  | cons c rest ih =>
    intro i j h
    simp only [findAux] at h
    split at h
    · rw [Option.some.injEq] at h
      omega
    · have := ih (i + 1) j h
      omega

theorem findAux_occ (pat : List Char) :
    ∀ (l : List Char) (i j : Nat), findAux pat l i = some j →
      pat.isPrefixOf (l.drop (j - i)) = true := by
  intro l
  induction l with
  | nil =>
    intro i j h
    simp only [findAux] at h
    split at h
    · rename_i hc
      rw [Option.some.injEq] at h
      subst h
      simpa using hc
    · cases h
  | cons c rest ih =>
    intro i j h
    simp only [findAux] at h
    split at h
    · rename_i hc
      rw [Option.some.injEq] at h
      subst h
      simpa using hc
    · have hge := findAux_ge pat rest (i + 1) j h
      have hk : j - i = (j - (i + 1)) + 1 := by omega
      rw [hk]
      simpa using ih (i + 1) j h

theorem findAux_min (pat : List Char) :
    ∀ (l : List Char) (i j : Nat), findAux pat l i = some j →
      ∀ k, k < j - i → pat.isPrefixOf (l.drop k) = false := by
  intro l
  induction l with
  | nil =>
    intro i j h k hk
    simp only [findAux] at h
    split at h
    · rw [Option.some.injEq] at h
      omega
    · cases h
  | cons c rest ih =>
    intro i j h k hk
    simp only [findAux] at h
    split at h
    · rw [Option.some.injEq] at h
      omega
    · rename_i hc
      have hge := findAux_ge pat rest (i + 1) j h
      cases k with
      | zero =>
        simp only [List.drop_zero]
        exact Bool.eq_false_iff.mpr hc
      | succ k' =>
        have hk' : k' < j - (i + 1) := by omega
        simpa using ih (i + 1) j h k' hk'

theorem findAux_isSome_of_occ (pat : List Char) :
    ∀ (l : List Char) (i m : Nat), pat.isPrefixOf (l.drop m) = true →
      (findAux pat l i).isSome = true := by
  intro l
  induction l with
  | nil =>
    intro i m h
    simp only [List.drop_nil] at h
    simp [findAux, h]
  | cons c rest ih =>
    intro i m h
    simp only [findAux]
    split
    · rfl
    · rename_i hc
      cases m with
      | zero =>
        simp only [List.drop_zero] at h
        exact absurd h hc
      | succ m' =>
        exact ih (i + 1) m' (by simpa using h)

theorem findFrom_eq_of_first (s pat : List Char) (start j : Nat)
    (hj : pat.isPrefixOf (s.drop j) = true) (hsj : start ≤ j)
    (hmin : ∀ k, k < j → start ≤ k → pat.isPrefixOf (s.drop k) = false) :
    findFrom s pat start = some j := by
  have hsome : (findAux pat (s.drop start) start).isSome = true := by
    apply findAux_isSome_of_occ pat (s.drop start) start (j - start)
    rw [List.drop_drop]
    have heq : start + (j - start) = j := by omega
    rw [heq]
    exact hj
  obtain ⟨j0, hj0⟩ := Option.isSome_iff_exists.mp hsome
  have hge : start ≤ j0 := findAux_ge pat (s.drop start) start j0 hj0
  have hocc0 : pat.isPrefixOf (s.drop j0) = true := by
    have hx := findAux_occ pat (s.drop start) start j0 hj0
    rw [List.drop_drop] at hx
    have heq : start + (j0 - start) = j0 := by omega
    rwa [heq] at hx
  have hle1 : j0 ≤ j := by
    by_contra hlt
    have hk : j - start < j0 - start := by omega
    have hx := findAux_min pat (s.drop start) start j0 hj0 (j - start) hk
    rw [List.drop_drop] at hx
    have heq : start + (j - start) = j := by omega
    rw [heq] at hx
    rw [hj] at hx
    cases hx
  have hle2 : j ≤ j0 := by
    by_contra hlt
    have hx := hmin j0 (by omega) hge
    rw [hocc0] at hx
    cases hx
  have hje : j0 = j := by omega
  rw [hje] at hj0
  exact hj0

/-- C5: for every raw model output whose stripped text contains a
(case-insensitively) `sql`-tagged fence — first such opening at index `i`
of the lowered text — and a closing fence at index `j ≥ i + 6`, the first
one after the opening, `parse` returns exactly the text strictly between
them, trimmed, regardless of any surrounding prose; in particular neither
the untagged-fence branch nor the keyword scan is consulted. -/
theorem c5_fenced_sql_extraction (text : List Char) (i j : Nat)
    (hocc : bq3sql.isPrefixOf ((lowerStr (pstrip text)).drop i) = true)
    (hfirst : ∀ k, k < i → bq3sql.isPrefixOf ((lowerStr (pstrip text)).drop k) = false)
    (hclose : bq3.isPrefixOf ((pstrip text).drop j) = true)
    (hij : i + 6 ≤ j)
    (hnext : ∀ k, k < j → i + 6 ≤ k → bq3.isPrefixOf ((pstrip text).drop k) = false) :
    Run.parse text = pstrip (pySlice (pstrip text) (i + 6) j) := by
  have h1 : findFrom (lowerStr (pstrip text)) bq3sql 0 = some i :=
    findFrom_eq_of_first _ _ _ _ hocc (Nat.zero_le _)
      (fun k hk _ => hfirst k hk)
  have h2 : findFrom (pstrip text) bq3 (i + 6) = some j :=
    findFrom_eq_of_first _ _ _ _ hclose hij hnext
  simp only [Run.parse, h1, h2]

/-- Witness for C5 at the specification's own example input. -/
theorem c5_fenced_sql_extraction_witness :
    Run.parse (lchars "Here:\n```sql\nSELECT 1;\n```\nDone") =
      pstrip (pySlice (pstrip (lchars "Here:\n```sql\nSELECT 1;\n```\nDone")) (6 + 6) 23) ∧
    Run.parse (lchars "Here:\n```sql\nSELECT 1;\n```\nDone") = lchars "SELECT 1;" :=
  ⟨c5_fenced_sql_extraction (lchars "Here:\n```sql\nSELECT 1;\n```\nDone") 6 23
      (by decide) (by decide) (by decide) (by decide) (by decide),
    by decide⟩

theorem containsSub_false_none (s pat : List Char) (h : containsSub s pat = false) :
    findFrom s pat 0 = none := by
  unfold containsSub at h
  cases hx : findFrom s pat 0 with
  | none => rfl
  | some v =>
    rw [hx] at h
    simp at h

theorem captureLoop_skip (ls : List (List Char)) :
    ∀ a, a ≤ ls.length → (∀ k, k < a → lineKw (ls.getD k []) = false) →
      Run.captureLoop ls false = Run.captureLoop (ls.drop a) false := by
  induction ls with
  | nil =>
    intro a ha _
    have h0 : a = 0 := Nat.le_zero.mp ha
    subst h0
    rfl
  | cons l rest ih =>
    intro a ha hmin
    cases a with
    | zero => rfl
    | succ a' =>
      have h0 : lineKw l = false := by
        simpa [List.getD_cons_zero] using hmin 0 (Nat.succ_pos a')
      have step : Run.captureLoop (l :: rest) false = Run.captureLoop rest false := by
        simp [Run.captureLoop, h0]
      rw [step, List.drop_succ_cons]
      exact ih a' (by simpa using ha)
        (fun k hk => by simpa [List.getD_cons_succ] using hmin (k + 1) (by omega))

theorem captureLoop_true_take (ls : List (List Char)) :
    ∀ m, m < ls.length → stripEndsSemi (ls.getD m []) = true →
      (∀ k, k < m → stripEndsSemi (ls.getD k []) = false) →
      Run.captureLoop ls true = ls.take (m + 1) := by
  induction ls with
  | nil =>
    intro m hm
    simp at hm
  | cons l rest ih =>
    intro m hm hsemi hmin
    cases m with
    | zero =>
      rw [List.getD_cons_zero] at hsemi
      simp [Run.captureLoop, hsemi]
    | succ m' =>
      have hsl : stripEndsSemi l = false := by
        simpa [List.getD_cons_zero] using hmin 0 (Nat.succ_pos m')
      have step : Run.captureLoop (l :: rest) true = l :: Run.captureLoop rest true := by
        simp [Run.captureLoop, hsl]
      rw [step, List.take_succ_cons]
      congr 1
      exact ih m' (by simpa using hm) (by simpa [List.getD_cons_succ] using hsemi)
        (fun k hk => by simpa [List.getD_cons_succ] using hmin (k + 1) (by omega))

theorem getD_drop_char (ls : List (List Char)) (i j : Nat) (h : i + j < ls.length) :
    (ls.drop i).getD j [] = ls.getD (i + j) [] := by
  have hj : j < (ls.drop i).length := by
    rw [List.length_drop]
    omega
  rw [List.getD_eq_getElem _ _ hj, List.getD_eq_getElem _ _ h]
  exact List.getElem_drop ls

theorem captureLoop_cons_semi (l : List Char) (rest : List (List Char))
    (hkw : lineKw l = true) (hsemi : stripEndsSemi l = true) :
    Run.captureLoop (l :: rest) false = [l] := by
  simp [Run.captureLoop, hkw, hsemi]

theorem captureLoop_cons_nosemi (l : List Char) (rest : List (List Char))
    (hkw : lineKw l = true) (hsemi : stripEndsSemi l = false) :
    Run.captureLoop (l :: rest) false = l :: Run.captureLoop rest true := by
  simp [Run.captureLoop, hkw, hsemi]

/-- C6: for every raw model output whose stripped text has no fenced block
(neither an `sql`-tagged fence in the lowered text nor a bare triple
backtick) but whose line `a` is the first containing a DML keyword
case-insensitively, `parse` captures lines `a..b` inclusive, where `b ≥ a`
is the first captured line whose trimmed form ends in `;`, and returns
them joined by newlines and trimmed. -/
theorem c6_keyword_scan (text : List Char) (a b : Nat)
    (hnsql : containsSub (lowerStr (pstrip text)) bq3sql = false)
    (hnf : containsSub (pstrip text) bq3 = false)
    (hkwtext : sqlKeywords.any (fun kw => containsSub (upperStr (pstrip text)) kw) = true)
    (ha : a < (splitNL (pstrip text)).length)
    (hb : b < (splitNL (pstrip text)).length)
    (hab : a ≤ b)
    (hkwa : lineKw ((splitNL (pstrip text)).getD a []) = true)
    (hmina : ∀ k, k < a → lineKw ((splitNL (pstrip text)).getD k []) = false)
    (hsemib : stripEndsSemi ((splitNL (pstrip text)).getD b []) = true)
    (hminb : ∀ k, k < b → a ≤ k → stripEndsSemi ((splitNL (pstrip text)).getD k []) = false) :
    Run.parse text = pstrip (joinNL (((splitNL (pstrip text)).take (b + 1)).drop a)) := by
  have h1 : findFrom (lowerStr (pstrip text)) bq3sql 0 = none :=
    containsSub_false_none _ _ hnsql
  have h2 : findFrom (pstrip text) bq3 0 = none := containsSub_false_none _ _ hnf
  have hdropa : (splitNL (pstrip text)).drop a
      = (splitNL (pstrip text)).getD a [] :: (splitNL (pstrip text)).drop (a + 1) := by
    rw [List.drop_eq_getElem_cons ha, List.getD_eq_getElem _ _ ha]
  have hslice : ((splitNL (pstrip text)).take (b + 1)).drop a
      = (splitNL (pstrip text)).getD a []
        :: ((splitNL (pstrip text)).drop (a + 1)).take (b - a) := by
    rw [List.drop_take, hdropa]
    have hba : b + 1 - a = (b - a) + 1 := by omega
    rw [hba, List.take_succ_cons]
  have hcap : Run.captureLoop (splitNL (pstrip text)) false
      = (splitNL (pstrip text)).getD a []
        :: ((splitNL (pstrip text)).drop (a + 1)).take (b - a) := by
    rw [captureLoop_skip (splitNL (pstrip text)) a (Nat.le_of_lt ha) hmina, hdropa]
    by_cases hsa : stripEndsSemi ((splitNL (pstrip text)).getD a []) = true
    · have hba : b = a := by
        by_contra hne
        have hlt : a < b := by omega
        have hx := hminb a hlt (Nat.le_refl a)
        rw [hsa] at hx
        cases hx
      subst hba
      rw [captureLoop_cons_semi _ _ hkwa hsa]
      simp [Nat.sub_self]
    · have hsa' : stripEndsSemi ((splitNL (pstrip text)).getD a []) = false :=
        Bool.eq_false_iff.mpr hsa
      have hlt : a < b := by
        rcases Nat.lt_or_ge a b with h | h
        · exact h
        · have hba : b = a := by omega
          rw [hba] at hsemib
          rw [hsemib] at hsa'
          cases hsa'
      rw [captureLoop_cons_nosemi _ _ hkwa hsa']
      congr 1
      have hm : b - a = (b - a - 1) + 1 := by omega
      rw [hm]
      apply captureLoop_true_take
      · rw [List.length_drop]
        omega
      · rw [getD_drop_char _ _ _ (by omega)]
        have he : a + 1 + (b - a - 1) = b := by omega
        rw [he]
        exact hsemib
      · intro k hk
        rw [getD_drop_char _ _ _ (by omega)]
        exact hminb (a + 1 + k) (by omega) (by omega)
  have hparse : Run.parse text = Run.keywordScan (pstrip text) := by
    simp only [Run.parse, h1, h2]
  have hks : Run.keywordScan (pstrip text)
      = pstrip (joinNL (Run.captureLoop (splitNL (pstrip text)) false)) := by
    unfold Run.keywordScan
    rw [hkwtext]
    simp
  rw [hparse, hks, hcap, hslice]

/-- Witness for C6 at the specification's own example input. -/
theorem c6_keyword_scan_witness :
    Run.parse (lchars "Sure.\nSELECT * FROM t\nWHERE x=1;\nThanks") =
      pstrip (joinNL (((splitNL (pstrip
        (lchars "Sure.\nSELECT * FROM t\nWHERE x=1;\nThanks"))).take (2 + 1)).drop 1)) ∧
    Run.parse (lchars "Sure.\nSELECT * FROM t\nWHERE x=1;\nThanks") =
      lchars "SELECT * FROM t\nWHERE x=1;" :=
  ⟨c6_keyword_scan (lchars "Sure.\nSELECT * FROM t\nWHERE x=1;\nThanks") 1 2
      (by decide) (by decide) (by decide) (by decide) (by decide) (by decide)
      (by decide) (by decide) (by decide) (by decide),
    by decide⟩

theorem captureLoop_run_rag : ∀ (ls : List (List Char)) (b : Bool),
    Run.captureLoop ls b = Rag.captureLoop ls b := by
  intro ls
  induction ls with
  | nil => intro b; rfl
  | cons l rest ih =>
    intro b
    simp only [Run.captureLoop, Rag.captureLoop, ih]

theorem captureLoop_run_app : ∀ (ls : List (List Char)) (b : Bool),
    Run.captureLoop ls b = App.captureLoop ls b := by
  intro ls
  induction ls with
  | nil => intro b; rfl
  | cons l rest ih =>
    intro b
    simp only [Run.captureLoop, App.captureLoop, ih]

theorem captureLoop_run_modelapp : ∀ (ls : List (List Char)) (b : Bool),
    Run.captureLoop ls b = ModelApp.captureLoop ls b := by
  intro ls
  induction ls with
  | nil => intro b; rfl
  | cons l rest ih =>
    intro b
    simp only [Run.captureLoop, ModelApp.captureLoop, ih]

theorem keywordScan_run_rag (t : List Char) : Run.keywordScan t = Rag.keywordScan t := by
  simp only [Run.keywordScan, Rag.keywordScan, captureLoop_run_rag]

theorem keywordScan_run_app (t : List Char) : Run.keywordScan t = App.keywordScan t := by
  simp only [Run.keywordScan, App.keywordScan, captureLoop_run_app]

theorem keywordScan_run_modelapp (t : List Char) :
    Run.keywordScan t = ModelApp.keywordScan t := by
  simp only [Run.keywordScan, ModelApp.keywordScan, captureLoop_run_modelapp]

/-- C10: the four copies of `SQLQueryParser.parse` — in `model/run.py`,
`model/nl2sql_rag.py`, `app.py` and `model/app.py` — are extensionally
equal: on every input all four return the same output, so both pipeline
variants and both UI entry points share one SQL-extraction behaviour. -/
theorem c10_parsers_agree (t : List Char) :
    Run.parse t = Rag.parse t ∧ Run.parse t = App.parse t ∧
      Run.parse t = ModelApp.parse t := by
  refine ⟨?_, ?_, ?_⟩
  · simp only [Run.parse, Rag.parse, keywordScan_run_rag]
  · simp only [Run.parse, App.parse, keywordScan_run_app]
  · simp only [Run.parse, ModelApp.parse, keywordScan_run_modelapp]

theorem genFailMsg_ne_nil (e : List Char) : genFailMsg e ≠ [] := by
  unfold genFailMsg
  intro h
  rw [List.append_eq_nil] at h
  exact absurd h.1 (by decide)

theorem execErrMsg_ne_nil (e : List Char) : execErrMsg e ≠ [] := by
  unfold execErrMsg
  intro h
  rw [List.append_eq_nil] at h
  exact absurd h.1 (by decide)

theorem synthFailMsg_ne_nil (e : List Char) : synthFailMsg e ≠ [] := by
  unfold synthFailMsg
  intro h
  rw [List.append_eq_nil] at h
  exact absurd h.1 (by decide)

theorem errorAnswer_ne_nil (m : List Char) : errorAnswer m ≠ [] := by
  unfold errorAnswer
  intro h
  rw [List.append_eq_nil, List.append_eq_nil] at h
  exact absurd h.1.1 (by decide)

theorem errTruthy_some_of_ne (m : List Char) (h : m ≠ []) :
    errTruthy (some m) = true := by
  unfold errTruthy
  cases m with
  | nil => exact absurd rfl h
  | cons c cs => rfl

theorem pstrip_ne_nil_of_okNonBlank (r : List Char)
    (h : okNonBlank (Except.ok r) = true) : pstrip r ≠ [] := by
  simp only [okNonBlank] at h
  intro hx
  rw [hx] at h
  simp at h

theorem gen_ok_eq (o : Oracle) (st : NL2SQLState) (g : List Char)
    (h : o.genResp = Except.ok g) :
    Run.generate_sql_query o st = { st with sql_query := Run.parse g } := by
  unfold Run.generate_sql_query
  rw [h]

theorem gen_fail_eq (o : Oracle) (st : NL2SQLState) (e : List Char)
    (h : o.genResp = Except.error e) :
    Run.generate_sql_query o st = { st with error := some (genFailMsg e) } := by
  unfold Run.generate_sql_query
  rw [h]

theorem exec_connect_fail_eq (o : Oracle) (st : NL2SQLState) (e : List Char)
    (h : o.connect = Except.error e) :
    Run.execute_sql_query o st
      = ({ st with error := some (execErrMsg e) }, ⟨false, false⟩) := by
  unfold Run.execute_sql_query
  rw [h]

theorem exec_stmt_fail_eq (o : Oracle) (st : NL2SQLState) (e : List Char)
    (hc : o.connect = Except.ok ()) (h : o.execResp = Except.error e) :
    Run.execute_sql_query o st
      = ({ st with error := some (execErrMsg e) }, ⟨true, false⟩) := by
  unfold Run.execute_sql_query
  rw [hc, h]

theorem exec_fetch_fail_eq (o : Oracle) (st : NL2SQLState) (e : List Char)
    (hc : o.connect = Except.ok ()) (he : o.execResp = Except.ok ())
    (hs : startsWithSelect st.sql_query = true)
    (hf : o.fetchResp = Except.error e) :
    Run.execute_sql_query o st
      = ({ st with error := some (execErrMsg e) }, ⟨true, false⟩) := by
  unfold Run.execute_sql_query
  rw [hc, he, hs, hf]
  rfl

theorem exec_select_ok_eq (o : Oracle) (st : NL2SQLState) (rows : List Row)
    (hc : o.connect = Except.ok ()) (he : o.execResp = Except.ok ())
    (hs : startsWithSelect st.sql_query = true)
    (hf : o.fetchResp = Except.ok rows) :
    Run.execute_sql_query o st = ({ st with query_result := rows }, ⟨true, true⟩) := by
  unfold Run.execute_sql_query
  rw [hc, he, hs, hf]
  rfl

theorem exec_commit_fail_eq (o : Oracle) (st : NL2SQLState) (e : List Char)
    (hc : o.connect = Except.ok ()) (he : o.execResp = Except.ok ())
    (hs : startsWithSelect st.sql_query = false)
    (hm : o.commitResp = Except.error e) :
    Run.execute_sql_query o st
      = ({ st with error := some (execErrMsg e) }, ⟨true, false⟩) := by
  unfold Run.execute_sql_query
  rw [hc, he, hs, hm]
  rfl

theorem exec_dml_ok_eq (o : Oracle) (st : NL2SQLState)
    (hc : o.connect = Except.ok ()) (he : o.execResp = Except.ok ())
    (hs : startsWithSelect st.sql_query = false)
    (hm : o.commitResp = Except.ok ()) :
    Run.execute_sql_query o st
      = ({ st with query_result := [[(lchars "affected_rows", PyVal.i o.rowcount)]] },
         ⟨true, true⟩) := by
  unfold Run.execute_sql_query
  rw [hc, he, hs, hm]
  rfl

theorem ans_ok_eq (o : Oracle) (st : NL2SQLState) (r : List Char)
    (h : o.ansResp = Except.ok r) :
    Run.generate_natural_answer o st = { st with final_answer := pstrip r } := by
  unfold Run.generate_natural_answer
  rw [h]

theorem ans_fail_eq (o : Oracle) (st : NL2SQLState) (e : List Char)
    (h : o.ansResp = Except.error e) :
    Run.generate_natural_answer o st = { st with final_answer := synthFailMsg e } := by
  unfold Run.generate_natural_answer
  rw [h]

theorem runGraph_error_case (o : Oracle) (st0 s2 : NL2SQLState)
    (h2 : (Run.execute_sql_query o (Run.generate_sql_query o st0)).1 = s2)
    (herr : errTruthy s2.error = true) :
    Run.runGraph o st0 = (Run.handle_error s2,
      [Stage.generateSql, Stage.executeQuery, Stage.handleError]) := by
  simp only [Run.runGraph, Run.should_handle_error]
  rw [h2]
  simp only [herr, eq_self_iff_true, if_true]

theorem runGraph_success_case (o : Oracle) (st0 s2 : NL2SQLState)
    (h2 : (Run.execute_sql_query o (Run.generate_sql_query o st0)).1 = s2)
    (herr : errTruthy s2.error = false) :
    Run.runGraph o st0 = (Run.generate_natural_answer o s2,
      [Stage.generateSql, Stage.executeQuery, Stage.generateAnswer]) := by
  simp only [Run.runGraph, Run.should_handle_error]
  rw [h2]
  simp only [herr, Bool.false_eq_true, if_false]
  rw [if_neg (by decide)]

theorem query_err_close (o : Oracle) (q m : List Char) (s2 : NL2SQLState)
    (hE : (Run.execute_sql_query o (Run.generate_sql_query o (Run.initialState q))).1 = s2)
    (hm : s2.error = some m) (hmne : m ≠ []) :
    (Run.query o q).error = some m ∧ (Run.query o q).answer = errorAnswer m := by
  have herr : errTruthy s2.error = true := by
    rw [hm]
    exact errTruthy_some_of_ne m hmne
  have hrg := runGraph_error_case o (Run.initialState q) s2 hE herr
  constructor
  · simp only [Run.query]
    rw [hrg]
    exact hm
  · simp only [Run.query]
    rw [hrg]
    show errorAnswer (errMsgOf s2.error) = errorAnswer m
    rw [hm]
    rfl

theorem query_ok_close (o : Oracle) (q : List Char) (s2 : NL2SQLState)
    (hE : (Run.execute_sql_query o (Run.generate_sql_query o (Run.initialState q))).1 = s2)
    (hnone : s2.error = none) (hans : okNonBlank o.ansResp = true) :
    (Run.query o q).answer ≠ [] ∧ (Run.query o q).error = none := by
  have herr : errTruthy s2.error = false := by
    rw [hnone]
    rfl
  have hrg := runGraph_success_case o (Run.initialState q) s2 hE herr
  cases ha : o.ansResp with
  | ok r =>
    have hb := ans_ok_eq o s2 r ha
    constructor
    · simp only [Run.query]
      rw [hrg, hb]
      exact pstrip_ne_nil_of_okNonBlank r (ha ▸ hans)
    · simp only [Run.query]
      rw [hrg, hb]
      exact hnone
  | error e =>
    have hb := ans_fail_eq o s2 e ha
    constructor
    · simp only [Run.query]
      rw [hrg, hb]
      exact synthFailMsg_ne_nil e
    · simp only [Run.query]
      rw [hrg, hb]
      exact hnone

theorem run_query_cases (o : Oracle) (q : List Char)
    (hdb : o.connect = Except.ok ()) (hans : okNonBlank o.ansResp = true) :
    ((Run.query o q).answer ≠ [] ∧ (Run.query o q).error = none) ∨
    (∃ m, (Run.query o q).error = some m ∧ m ≠ [] ∧
      (Run.query o q).answer = errorAnswer m) := by
  cases hexec : o.execResp with
  | error e2 =>
    have hcl := query_err_close o q (execErrMsg e2)
        { Run.generate_sql_query o (Run.initialState q) with error := some (execErrMsg e2) }
        (by rw [exec_stmt_fail_eq o _ e2 hdb hexec]) rfl (execErrMsg_ne_nil e2)
    exact Or.inr ⟨execErrMsg e2, hcl.1, execErrMsg_ne_nil e2, hcl.2⟩
  | ok u =>
    cases u
    cases hgen : o.genResp with
    | error e =>
      have hsel : startsWithSelect
          (Run.generate_sql_query o (Run.initialState q)).sql_query = false := by
        rw [gen_fail_eq o _ e hgen]
        rfl
      cases hcm : o.commitResp with
      | error e3 =>
        have hcl := query_err_close o q (execErrMsg e3)
            { Run.generate_sql_query o (Run.initialState q) with
                error := some (execErrMsg e3) }
            (by rw [exec_commit_fail_eq o _ e3 hdb hexec hsel hcm]) rfl
            (execErrMsg_ne_nil e3)
        exact Or.inr ⟨execErrMsg e3, hcl.1, execErrMsg_ne_nil e3, hcl.2⟩
      | ok v =>
        cases v
        have hm : ({ Run.generate_sql_query o (Run.initialState q) with
            query_result := [[(lchars "affected_rows", PyVal.i o.rowcount)]] }
              : NL2SQLState).error = some (genFailMsg e) := by
          rw [gen_fail_eq o _ e hgen]
        have hcl := query_err_close o q (genFailMsg e)
            { Run.generate_sql_query o (Run.initialState q) with
                query_result := [[(lchars "affected_rows", PyVal.i o.rowcount)]] }
            (by rw [exec_dml_ok_eq o _ hdb hexec hsel hcm]) hm (genFailMsg_ne_nil e)
        exact Or.inr ⟨genFailMsg e, hcl.1, genFailMsg_ne_nil e, hcl.2⟩
    | ok g =>
      have hsq : (Run.generate_sql_query o (Run.initialState q)).sql_query
          = Run.parse g := by
        rw [gen_ok_eq o _ g hgen]
      have hnoerr : (Run.generate_sql_query o (Run.initialState q)).error = none := by
        rw [gen_ok_eq o _ g hgen]
        rfl
      cases hsel : startsWithSelect (Run.parse g) with
      | true =>
        have hsel' : startsWithSelect
            (Run.generate_sql_query o (Run.initialState q)).sql_query = true := by
          rw [hsq]
          exact hsel
        cases hfetch : o.fetchResp with
        | error e3 =>
          have hcl := query_err_close o q (execErrMsg e3)
              { Run.generate_sql_query o (Run.initialState q) with
                  error := some (execErrMsg e3) }
              (by rw [exec_fetch_fail_eq o _ e3 hdb hexec hsel' hfetch]) rfl
              (execErrMsg_ne_nil e3)
          exact Or.inr ⟨execErrMsg e3, hcl.1, execErrMsg_ne_nil e3, hcl.2⟩
        | ok rows =>
          have hnone : ({ Run.generate_sql_query o (Run.initialState q) with
              query_result := rows } : NL2SQLState).error = none := hnoerr
          exact Or.inl (query_ok_close o q
            { Run.generate_sql_query o (Run.initialState q) with query_result := rows }
            (by rw [exec_select_ok_eq o _ rows hdb hexec hsel' hfetch]) hnone hans)
      | false =>
        have hsel' : startsWithSelect
            (Run.generate_sql_query o (Run.initialState q)).sql_query = false := by
          rw [hsq]
          exact hsel
        cases hcm : o.commitResp with
        | error e3 =>
          have hcl := query_err_close o q (execErrMsg e3)
              { Run.generate_sql_query o (Run.initialState q) with
                  error := some (execErrMsg e3) }
              (by rw [exec_commit_fail_eq o _ e3 hdb hexec hsel' hcm]) rfl
              (execErrMsg_ne_nil e3)
          exact Or.inr ⟨execErrMsg e3, hcl.1, execErrMsg_ne_nil e3, hcl.2⟩
        | ok v =>
          cases v
          have hnone : ({ Run.generate_sql_query o (Run.initialState q) with
              query_result := [[(lchars "affected_rows", PyVal.i o.rowcount)]] }
                : NL2SQLState).error = none := hnoerr
          exact Or.inl (query_ok_close o q
            { Run.generate_sql_query o (Run.initialState q) with
                query_result := [[(lchars "affected_rows", PyVal.i o.rowcount)]] }
            (by rw [exec_dml_ok_eq o _ hdb hexec hsel' hcm]) hnone hans)

/-- C1 (refutation): with a reachable database and a non-empty question, a
fully successful run whose answer-model response is whitespace-only ends
with `answer` empty and `error` absent, so neither disjunct of the claim
holds — the two fields can both be empty. -/
theorem c1_counterexample :
    oBlankAnswer.connect = Except.ok () ∧
    lchars "how many students are there" ≠ [] ∧
    ¬(((Run.query oBlankAnswer (lchars "how many students are there")).answer ≠ [] ∧
        (Run.query oBlankAnswer (lchars "how many students are there")).error = none) ∨
      (errTruthy (Run.query oBlankAnswer (lchars "how many students are there")).error
          = true ∧
        (Run.query oBlankAnswer (lchars "how many students are there")).answer
          = errorAnswer (errMsgOf
              (Run.query oBlankAnswer (lchars "how many students are there")).error))) := by
  refine ⟨rfl, by decide, by decide⟩

/-- C1 (amended): for every non-empty question and an invocation whose
database connect succeeds, provided the answer-model call, when it
succeeds, returns a response with non-whitespace content, `query` returns
either a non-empty `answer` with `error` absent, or a non-empty `error`
with `answer` equal to the formatted error explanation — never both
empty. -/
theorem c1_pipeline_totality (o : Oracle) (q : List Char)
    (hq : q ≠ []) (hdb : o.connect = Except.ok ())
    (hans : okNonBlank o.ansResp = true) :
    ((Run.query o q).answer ≠ [] ∧ (Run.query o q).error = none) ∨
    (∃ m, (Run.query o q).error = some m ∧ m ≠ [] ∧
      (Run.query o q).answer = errorAnswer m) :=
  run_query_cases o q hdb hans

/-- Witness for the amended C1 at a fully successful invocation. -/
theorem c1_pipeline_totality_witness :
    ((Run.query oHappy (lchars "how many students are there")).answer ≠ [] ∧
      (Run.query oHappy (lchars "how many students are there")).error = none) ∨
    (∃ m, (Run.query oHappy (lchars "how many students are there")).error = some m ∧
      m ≠ [] ∧
      (Run.query oHappy (lchars "how many students are there")).answer = errorAnswer m) :=
  c1_pipeline_totality oHappy (lchars "how many students are there")
    (by decide) rfl (by decide)

/-- C2 (refutation): on an execution failure the completed pipeline has
BOTH the final-answer field and the error field populated, so "exactly one
of the two is populated" is false. -/
theorem c2_counterexample :
    (Run.query oExecFail (lchars "list the students")).answer ≠ [] ∧
    (Run.query oExecFail (lchars "list the students")).error ≠ none ∧
    ¬(((Run.query oExecFail (lchars "list the students")).answer ≠ [] ∧
        (Run.query oExecFail (lchars "list the students")).error = none) ∨
      ((Run.query oExecFail (lchars "list the students")).answer = [] ∧
        (Run.query oExecFail (lchars "list the students")).error ≠ none)) := by
  decide

/-- C2 (amended): at pipeline completion the final answer is always
populated (given a reachable database and non-whitespace successful
synthesis responses); the error field may also be populated, and whenever
it is, the final answer equals the formatted explanation of that error —
the two fields are not mutually exclusive, but never both empty. -/
theorem c2_completion_invariant (o : Oracle) (q : List Char)
    (hq : q ≠ []) (hdb : o.connect = Except.ok ())
    (hans : okNonBlank o.ansResp = true) :
    (Run.query o q).answer ≠ [] ∧
    (∀ m, (Run.query o q).error = some m →
      (Run.query o q).answer = errorAnswer m) := by
  rcases run_query_cases o q hdb hans with ⟨hne, hnone⟩ | ⟨m, hm, hmne, hae⟩
  · refine ⟨hne, ?_⟩
    intro m hm
    rw [hnone] at hm
    cases hm
  · refine ⟨?_, ?_⟩
    · rw [hae]
      exact errorAnswer_ne_nil m
    · intro mp hmp
      rw [hm] at hmp
      injection hmp with hx
      rw [← hx]
      exact hae

/-- Witness for the amended C2 at an invocation with a failing execute. -/
theorem c2_completion_invariant_witness :
    (Run.query oExecFail (lchars "list the students")).answer ≠ [] ∧
    (∀ m, (Run.query oExecFail (lchars "list the students")).error = some m →
      (Run.query oExecFail (lchars "list the students")).answer = errorAnswer m) :=
  c2_completion_invariant oExecFail (lchars "list the students")
    (by decide) rfl (by decide)

/-- C3 (refutation): when SQL generation fails, the execution stage still
runs (it is on the unconditional edge `generate_sql → execute_query`), and
its own exception REPLACES the recorded generation error — at completion
the error field holds the execution message, not the generation one. -/
theorem c3_counterexample :
    oGenFail.genResp = Except.error (lchars "model unavailable") ∧
    Stage.executeQuery ∈ (Run.runGraph oGenFail (Run.initialState (lchars "hi"))).2 ∧
    (Run.runGraph oGenFail (Run.initialState (lchars "hi"))).1.error
      = some (execErrMsg (lchars "cannot execute an empty query")) ∧
    (Run.runGraph oGenFail (Run.initialState (lchars "hi"))).1.error
      ≠ some (genFailMsg (lchars "model unavailable")) := by
  refine ⟨rfl, by decide, by decide, by decide⟩

theorem graph_err_components (o : Oracle) (q m : List Char) (s2 : NL2SQLState)
    (hE : (Run.execute_sql_query o (Run.generate_sql_query o (Run.initialState q))).1 = s2)
    (hm : s2.error = some m) (hmne : m ≠ []) :
    (Run.runGraph o (Run.initialState q)).2
      = [Stage.generateSql, Stage.executeQuery, Stage.handleError] ∧
    Stage.generateAnswer ∉ (Run.runGraph o (Run.initialState q)).2 ∧
    (Run.runGraph o (Run.initialState q)).1.sql_query = s2.sql_query ∧
    (Run.runGraph o (Run.initialState q)).1.error = some m ∧
    (Run.runGraph o (Run.initialState q)).1.final_answer = errorAnswer m := by
  have herr : errTruthy s2.error = true := by
    rw [hm]
    exact errTruthy_some_of_ne m hmne
  have hrg := runGraph_error_case o (Run.initialState q) s2 hE herr
  rw [hrg]
  refine ⟨rfl, ?_, rfl, hm, ?_⟩
  · show Stage.generateAnswer ∉ [Stage.generateSql, Stage.executeQuery, Stage.handleError]
    decide
  · show errorAnswer (errMsgOf s2.error) = errorAnswer m
    rw [hm]
    rfl

/-- C3 (amended): when the SQL-generation stage fails, answer generation
does not run and control routes to the error-formatting stage, which
renders a non-empty error into the final answer; however the
query-execution stage still runs — on the empty generated query — and may
replace the recorded generation error with an execution error. -/
theorem c3_generation_failure_routing (o : Oracle) (q e : List Char)
    (hgen : o.genResp = Except.error e) :
    (Run.runGraph o (Run.initialState q)).2
      = [Stage.generateSql, Stage.executeQuery, Stage.handleError] ∧
    Stage.generateAnswer ∉ (Run.runGraph o (Run.initialState q)).2 ∧
    (Run.runGraph o (Run.initialState q)).1.sql_query = [] ∧
    ∃ m, (Run.runGraph o (Run.initialState q)).1.error = some m ∧ m ≠ [] ∧
      (Run.runGraph o (Run.initialState q)).1.final_answer = errorAnswer m := by
  have hsqnil : (Run.generate_sql_query o (Run.initialState q)).sql_query = [] := by
    rw [gen_fail_eq o _ e hgen]
    rfl
  cases hc : o.connect with
  | error e2 =>
    have hgc := graph_err_components o q (execErrMsg e2)
        { Run.generate_sql_query o (Run.initialState q) with error := some (execErrMsg e2) }
        (by rw [exec_connect_fail_eq o _ e2 hc]) rfl (execErrMsg_ne_nil e2)
    refine ⟨hgc.1, hgc.2.1, ?_, execErrMsg e2, hgc.2.2.2.1,
      execErrMsg_ne_nil e2, hgc.2.2.2.2⟩
    rw [hgc.2.2.1]
    exact hsqnil
  | ok u =>
    cases u
    cases hexec : o.execResp with
    | error e2 =>
      have hgc := graph_err_components o q (execErrMsg e2)
          { Run.generate_sql_query o (Run.initialState q) with error := some (execErrMsg e2) }
          (by rw [exec_stmt_fail_eq o _ e2 hc hexec]) rfl (execErrMsg_ne_nil e2)
      refine ⟨hgc.1, hgc.2.1, ?_, execErrMsg e2, hgc.2.2.2.1,
        execErrMsg_ne_nil e2, hgc.2.2.2.2⟩
      rw [hgc.2.2.1]
      exact hsqnil
    | ok v =>
      cases v
      have hsel : startsWithSelect
          (Run.generate_sql_query o (Run.initialState q)).sql_query = false := by
        rw [hsqnil]
        rfl
      cases hcm : o.commitResp with
      | error e3 =>
        have hgc := graph_err_components o q (execErrMsg e3)
            { Run.generate_sql_query o (Run.initialState q) with
                error := some (execErrMsg e3) }
            (by rw [exec_commit_fail_eq o _ e3 hc hexec hsel hcm]) rfl
            (execErrMsg_ne_nil e3)
        refine ⟨hgc.1, hgc.2.1, ?_, execErrMsg e3, hgc.2.2.2.1,
          execErrMsg_ne_nil e3, hgc.2.2.2.2⟩
        rw [hgc.2.2.1]
        exact hsqnil
      | ok w =>
        cases w
        have hm : ({ Run.generate_sql_query o (Run.initialState q) with
            query_result := [[(lchars "affected_rows", PyVal.i o.rowcount)]] }
              : NL2SQLState).error = some (genFailMsg e) := by
          rw [gen_fail_eq o _ e hgen]
        have hgc := graph_err_components o q (genFailMsg e)
            { Run.generate_sql_query o (Run.initialState q) with
                query_result := [[(lchars "affected_rows", PyVal.i o.rowcount)]] }
            (by rw [exec_dml_ok_eq o _ hc hexec hsel hcm]) hm (genFailMsg_ne_nil e)
        refine ⟨hgc.1, hgc.2.1, ?_, genFailMsg e, hgc.2.2.2.1,
          genFailMsg_ne_nil e, hgc.2.2.2.2⟩
        rw [hgc.2.2.1]
        exact hsqnil

/-- Witness for the amended C3 at a concrete generation failure. -/
theorem c3_generation_failure_routing_witness :
    (Run.runGraph oGenFail (Run.initialState (lchars "hi"))).2
      = [Stage.generateSql, Stage.executeQuery, Stage.handleError] ∧
    Stage.generateAnswer ∉ (Run.runGraph oGenFail (Run.initialState (lchars "hi"))).2 ∧
    (Run.runGraph oGenFail (Run.initialState (lchars "hi"))).1.sql_query = [] ∧
    ∃ m, (Run.runGraph oGenFail (Run.initialState (lchars "hi"))).1.error = some m ∧
      m ≠ [] ∧
      (Run.runGraph oGenFail (Run.initialState (lchars "hi"))).1.final_answer
        = errorAnswer m :=
  c3_generation_failure_routing oGenFail (lchars "hi") (lchars "model unavailable") rfl

/-- C4 (code falsification): when `cursor.fetchall` raises after a
successful connect and execute of a SELECT, the `except` clause of
`execute_sql_query` returns the error state without ever reaching
`conn.close()` — the opened connection is leaked, in both the plain and
the RAG executor.  The claim that the connection is released on every exit
path is therefore false of the code; the spec states the release
requirement explicitly, so this is a code bug (a missing
`finally`/context-manager cleanup), not a spec error. -/
theorem c4_connection_leak :
    (Run.execute_sql_query oFetchFail stSelect).2 = ConnTrace.mk true false ∧
    (Run.execute_sql_query oFetchFail stSelect).1.error
      = some (execErrMsg (lchars "SSL connection has been closed unexpectedly")) ∧
    (Rag.execute_sql_query roFetchFail rstSelect).2 = ConnTrace.mk true false := by
  refine ⟨rfl, by decide, rfl⟩

/-- C7: when connect, execute and fetch all succeed on a statement whose
trimmed uppercase form starts with `SELECT`, the executor returns exactly
the fetched rows (in order) with the error field still absent; in
particular a SELECT returning zero rows yields the empty sequence and no
error. -/
theorem c7_select_rows (o : Oracle) (st : NL2SQLState) (rows : List Row)
    (hdb : o.connect = Except.ok ()) (he : o.execResp = Except.ok ())
    (hf : o.fetchResp = Except.ok rows)
    (hs : startsWithSelect st.sql_query = true)
    (herr : st.error = none) :
    (Run.execute_sql_query o st).1.query_result = rows ∧
    (Run.execute_sql_query o st).1.error = none ∧
    (rows = [] → (Run.execute_sql_query o st).1.query_result = []) := by
  rw [exec_select_ok_eq o st rows hdb he hs hf]
  exact ⟨rfl, herr, fun h => h⟩

/-- Witness for C7 at a zero-row SELECT. -/
theorem c7_select_rows_witness :
    (Run.execute_sql_query oHappy stSelect).1.query_result = [] ∧
    (Run.execute_sql_query oHappy stSelect).1.error = none ∧
    (([] : List Row) = [] → (Run.execute_sql_query oHappy stSelect).1.query_result = []) :=
  c7_select_rows oHappy stSelect [] rfl rfl rfl (by decide) rfl

/-- C8: when the similarity search raises, `get_relevant_context` returns
an empty chunk list and empty combined context instead of propagating, so
`retrieve_context` stores empty context fields, leaves the error field
untouched, and the generation and execution stages still run. -/
theorem c8_retrieval_failure (o : RAGOracle) (q e : List Char)
    (h : o.searchResp = Except.error e) :
    Rag.get_relevant_context o = ([], []) ∧
    (Rag.retrieve_context o (Rag.initialState q)).context_docs = [] ∧
    (Rag.retrieve_context o (Rag.initialState q)).rag_context = [] ∧
    (Rag.retrieve_context o (Rag.initialState q)).error = none ∧
    Stage.generateSql ∈ (Rag.runGraph o (Rag.initialState q)).2 ∧
    Stage.executeQuery ∈ (Rag.runGraph o (Rag.initialState q)).2 := by
  have hg : Rag.get_relevant_context o = ([], []) := by
    unfold Rag.get_relevant_context
    rw [h]
  refine ⟨hg, ?_, ?_, rfl, ?_, ?_⟩
  · show (Rag.get_relevant_context o).1 = []
    rw [hg]
  · show (Rag.get_relevant_context o).2 = []
    rw [hg]
  · simp only [Rag.runGraph]
    split
    · show Stage.generateSql ∈ [Stage.retrieveContext, Stage.generateSql,
        Stage.executeQuery, Stage.handleError]
      decide
    · show Stage.generateSql ∈ [Stage.retrieveContext, Stage.generateSql,
        Stage.executeQuery, Stage.generateAnswer]
      decide
  · simp only [Rag.runGraph]
    split
    · show Stage.executeQuery ∈ [Stage.retrieveContext, Stage.generateSql,
        Stage.executeQuery, Stage.handleError]
      decide
    · show Stage.executeQuery ∈ [Stage.retrieveContext, Stage.generateSql,
        Stage.executeQuery, Stage.generateAnswer]
      decide

/-- Witness for C8 at a concrete failing similarity search. -/
theorem c8_retrieval_failure_witness :
    Rag.get_relevant_context roSearchFail = ([], []) ∧
    (Rag.retrieve_context roSearchFail (Rag.initialState (lchars "show students"))).context_docs
      = [] ∧
    (Rag.retrieve_context roSearchFail (Rag.initialState (lchars "show students"))).rag_context
      = [] ∧
    (Rag.retrieve_context roSearchFail (Rag.initialState (lchars "show students"))).error
      = none ∧
    Stage.generateSql
      ∈ (Rag.runGraph roSearchFail (Rag.initialState (lchars "show students"))).2 ∧
    Stage.executeQuery
      ∈ (Rag.runGraph roSearchFail (Rag.initialState (lchars "show students"))).2 :=
  c8_retrieval_failure roSearchFail (lchars "show students")
    (lchars "Chroma collection not found") rfl

/-- C9: when the answer-model call raises, the synthesizer returns the
prior state with only the final-answer field changed, set to the degraded
message that results were obtained but explanation generation failed; the
already-computed rows, the question, the query, the error field — and in
the RAG variant also the retrieved context — are left unchanged, and no
exception escapes (the embedded function is total).  Both the plain and
the RAG synthesizer are covered. -/
theorem c9_synth_failure (o : Oracle) (ro : RAGOracle) (st : NL2SQLState)
    (rst : NL2SQLRAGState) (e f : List Char)
    (h : o.ansResp = Except.error e) (hr : ro.ansResp = Except.error f) :
    Run.generate_natural_answer o st = { st with final_answer := synthFailMsg e } ∧
    synthFailMsg e
      = lchars "Generated results but failed to create natural language response: " ++ e ∧
    (Run.generate_natural_answer o st).query_result = st.query_result ∧
    (Run.generate_natural_answer o st).error = st.error ∧
    Rag.generate_natural_answer ro rst = { rst with final_answer := synthFailMsg f } ∧
    (Rag.generate_natural_answer ro rst).query_result = rst.query_result ∧
    (Rag.generate_natural_answer ro rst).context_docs = rst.context_docs ∧
    (Rag.generate_natural_answer ro rst).error = rst.error := by
  have h1 : Run.generate_natural_answer o st = { st with final_answer := synthFailMsg e } :=
    ans_fail_eq o st e h
  have h2 : Rag.generate_natural_answer ro rst
      = { rst with final_answer := synthFailMsg f } := by
    unfold Rag.generate_natural_answer
    rw [hr]
  exact ⟨h1, rfl, by rw [h1], by rw [h1], h2, by rw [h2], by rw [h2], by rw [h2]⟩

/-- Witness for C9 at concrete failing answer-model calls. -/
theorem c9_synth_failure_witness :
    Run.generate_natural_answer oAnsFail stC9
      = { stC9 with final_answer := synthFailMsg (lchars "Ollama timeout") } ∧
    synthFailMsg (lchars "Ollama timeout")
      = lchars "Generated results but failed to create natural language response: "
        ++ lchars "Ollama timeout" ∧
    (Run.generate_natural_answer oAnsFail stC9).query_result = stC9.query_result ∧
    (Run.generate_natural_answer oAnsFail stC9).error = stC9.error ∧
    Rag.generate_natural_answer roAnsFail rstC9
      = { rstC9 with final_answer := synthFailMsg (lchars "connection refused") } ∧
    (Rag.generate_natural_answer roAnsFail rstC9).query_result = rstC9.query_result ∧
    (Rag.generate_natural_answer roAnsFail rstC9).context_docs = rstC9.context_docs ∧
    (Rag.generate_natural_answer roAnsFail rstC9).error = rstC9.error :=
  c9_synth_failure oAnsFail roAnsFail stC9 rstC9
    (lchars "Ollama timeout") (lchars "connection refused") rfl rfl
